import Mathlib

/-
Verification development for an SMB-to-S3 bulk transfer tool
(src/config.py, src/sync.py, src/utils.py).

The Python code is shallowly embedded below.  External effects
(filesystem size resolution, the storage put call, wall-clock time) are
passed in explicitly as function parameters; the per-thread client cache
is explicit state; the orchestration loop over completed futures is
modelled as processing the submitted units in an arbitrary completion
order (a permutation of the submitted list), since each future result is
consumed exactly once by the single consuming loop.
-/

/- ===================== src/config.py ===================== -/

/-- Embedding of the Config dataclass of src/config.py.  Defaults come
from environment variables, so every field is kept abstract here. -/
structure Config where
  aws_region : String
  s3_bucket : String
  s3_prefix : String
  s3_storage_class : String
  smb_server : String
  smb_share : String
  smb_user : String
  smb_password : String
  smb_domain : String
  max_workers : Nat
  dry_run : Bool
  log_level : String
  mock_mode : Bool
  mock_num_files : Nat
deriving Repr, DecidableEq

/-- Embedding of Config.__post_init__ of src/config.py.  In Python,
"not self.s3_bucket" on a string tests emptiness; a raised ValueError is
modelled as Except.error carrying the message. -/
def Config.postInit (c : Config) : Except String Unit :=
  if !c.mock_mode then
    if c.s3_bucket = "" then Except.error "S3_BUCKET is required"
    else if c.smb_server = "" then
      Except.error "SMB_SERVER is required when not in mock mode"
    else Except.ok ()
  else Except.ok ()

/- ===================== src/utils.py ===================== -/

/-- Rounding of the exact fraction num/den (den > 0) to the nearest
integer with ties to even: the rounding CPython %.2f applies to the
scaled value.  The running value in format_bytes is an integer byte
count divided by a power of 1024; binary64 floats represent such values
exactly below 2^53 (dividing by 1024 only decrements the exponent), so
this exact-fraction model coincides with the float computation there. -/
def roundHalfEven (num den : Nat) : Nat :=
  let f := num / den
  let r := num % den
  if 2 * r < den then f
  else if den < 2 * r then f + 1
  else if f % 2 = 0 then f else f + 1

/-- Rendering of the exact nonnegative fraction num/den with two decimal
places, as the Python f-string with format .2f does on its float. -/
def formatTwoDec (num den : Nat) : String :=
  let c := roundHalfEven (num * 100) den
  let whole := c / 100
  let frac := c % 100
  toString whole ++ "." ++ (if frac < 10 then "0" ++ toString frac else toString frac)

/-- The loop of format_bytes in src/utils.py: walk the unit ladder,
dividing the value by 1024 while it is at least 1024; fall through to
PB.  The float value is carried exactly as the fraction num/den with den
the power of 1024 accumulated so far. -/
def formatBytesGo : Nat → Nat → List String → String
  | num, den, [] => formatTwoDec num den ++ " PB"
  | num, den, u :: us =>
      if num < 1024 * den then formatTwoDec num den ++ " " ++ u
      else formatBytesGo num (den * 1024) us

/-- Embedding of format_bytes of src/utils.py. -/
def format_bytes (n : Nat) : String :=
  formatBytesGo n 1 ["B", "KB", "MB", "GB", "TB"]

/- ===================== src/sync.py: transfer unit ===================== -/

/-- The (success, message, bytes_transferred) tuple returned by
OptimizedS3Uploader.upload_file, named as the design data model names
its fields. -/
structure Outcome where
  success : Bool
  detail : String
  bytes_transferred : Nat
deriving Repr, DecidableEq

/-- The per-thread client cache (threading.local with field s3_client).
Client instances are identified by the order of construction; nextId
counts the boto3.client constructions performed so far. -/
structure ClientCache where
  nextId : Nat
  cache : Nat → Option Nat

/-- The cache state at uploader construction: no thread has a client. -/
def initCache : ClientCache :=
  { nextId := 0, cache := fun _ => none }

/-- Embedding of OptimizedS3Uploader.get_s3_client for worker context w:
lazily construct and cache a client on the first call from w, return the
cached instance afterwards. -/
def get_s3_client (w : Nat) (st : ClientCache) : Nat × ClientCache :=
  match st.cache w with
  | some c => (c, st)
  | none =>
      (st.nextId,
       { nextId := st.nextId + 1,
         cache := fun v => if v = w then some st.nextId else st.cache v })

/-- Well-formedness of the client cache, holding in every reachable
state: cached instances were allocated by the construction counter, and
no two worker contexts cache the same instance. -/
def ClientCache.WF (st : ClientCache) : Prop :=
  (∀ w c, st.cache w = some c → c < st.nextId) ∧
  (∀ w v c, st.cache w = some c → st.cache v = some c → w = v)

/-- Observable side effects of one upload_file call, in program order. -/
inductive Effect where
  | getSize (path : String)
  | getClient (w : Nat)
  | putObject (client : Nat) (path : String) (key : String)
deriving Repr, DecidableEq

/-- Tests whether an effect is a storage operation on the client. -/
def Effect.isPutOp : Effect → Bool
  | Effect.putObject _ _ _ => true
  | _ => false

/-- Embedding of OptimizedS3Uploader.upload_file of src/sync.py.
fs models os.path.getsize (error = raised exception text), put models
s3_client.upload_file on a given client (error = raised exception text).
Python evaluation order is kept: the size is resolved first, then the
client is obtained, then the dry-run branch is taken; any exception is
caught and turned into a failed outcome with message
"{path}: {error}" and 0 bytes. -/
def upload_file (cfg : Config) (fs : String → Except String Nat)
    (put : Nat → String → String → Except String Unit)
    (w : Nat) (st : ClientCache) (file_path s3_key : String) :
    Outcome × ClientCache × List Effect :=
  match fs file_path with
  | Except.error e =>
      ({ success := false, detail := file_path ++ ": " ++ e, bytes_transferred := 0 },
       st, [Effect.getSize file_path])
  | Except.ok file_size =>
      let r := get_s3_client w st
      if cfg.dry_run then
        ({ success := true, detail := file_path, bytes_transferred := file_size },
         r.2, [Effect.getSize file_path, Effect.getClient w])
      else
        match put r.1 file_path s3_key with
        | Except.ok _ =>
            ({ success := true, detail := file_path, bytes_transferred := file_size },
             r.2, [Effect.getSize file_path, Effect.getClient w,
                   Effect.putObject r.1 file_path s3_key])
        | Except.error e =>
            ({ success := false, detail := file_path ++ ": " ++ e, bytes_transferred := 0 },
             r.2, [Effect.getSize file_path, Effect.getClient w,
                   Effect.putObject r.1 file_path s3_key])

/- ===================== src/sync.py: orchestrator ===================== -/

/-- The stats dictionary of OptimizedS3Uploader.__init__.  start_time is
none until sync sets it (the model keeps wall-clock time abstract, so a
started clock is recorded as some 0). -/
structure Stats where
  success : Nat
  failed : Nat
  bytes_transferred : Nat
  start_time : Option Nat
deriving Repr, DecidableEq

/-- The stats at uploader construction. -/
def initStats : Stats :=
  { success := 0, failed := 0, bytes_transferred := 0, start_time := none }

/-- The stats right after sync starts the clock. -/
def startedStats : Stats :=
  { initStats with start_time := some 0 }

/-- The per-completion update in the sync loop of src/sync.py: on
success increment the success counter and add the transferred bytes, on
failure increment the failed counter. -/
def recordOutcome (s : Stats) (o : Outcome) : Stats :=
  if o.success then
    { s with success := s.success + 1,
             bytes_transferred := s.bytes_transferred + o.bytes_transferred }
  else
    { s with failed := s.failed + 1 }

/-- The stats after a list of outcomes has been recorded in order. -/
def statsAfter (s : Stats) (os : List Outcome) : Stats :=
  os.foldl recordOutcome s

/-- The stats after the outcomes of a list of units, computed by run,
have been recorded in order. -/
def runStats (run : String × String → Outcome) (s : Stats)
    (us : List (String × String)) : Stats :=
  statsAfter s (us.map run)

/-- One refresh of the tqdm progress bar: completed is the bar count
after pbar.update(1), total the bar total, readout the postfixed live
stats (the displayed failed count; the rate shown with it derives from
wall-clock time, which the model keeps abstract). -/
structure ProgressEvent where
  completed : Nat
  total : Nat
  readout : Option Nat
deriving Repr, DecidableEq

/-- The live readout written by pbar.set_postfix in src/sync.py: it is
refreshed only under the guard success > 0. -/
def liveReadout (s : Stats) : Option Nat :=
  if s.success > 0 then some s.failed else none

/-- The body of the as_completed loop of OptimizedS3Uploader.sync: for
each completed unit, record its outcome, advance the bar and refresh the
guarded readout. -/
def syncLoop (run : String × String → Outcome) (total : Nat) :
    Nat → Stats → List (String × String) → Stats × List ProgressEvent
  | _, s, [] => (s, [])
  | completed, s, u :: rest =>
      let o := run u
      let s1 := recordOutcome s o
      let ev : ProgressEvent :=
        { completed := completed + 1, total := total, readout := liveReadout s1 }
      let r := syncLoop run total (completed + 1) s1 rest
      (r.1, ev :: r.2)

/-- The final summary printed by OptimizedS3Uploader.print_summary
(elapsed seconds and the derived rates are wall-clock quantities kept
abstract; the guard in the code makes the rate 0 rather than divide by
zero when elapsed is 0). -/
structure Report where
  total_files : Nat
  successful : Nat
  failed : Nat
  data_transferred : String
deriving Repr, DecidableEq

/-- Embedding of OptimizedS3Uploader.print_summary of src/sync.py. -/
def print_summary (s : Stats) : Report :=
  { total_files := s.success + s.failed,
    successful := s.success,
    failed := s.failed,
    data_transferred := format_bytes s.bytes_transferred }

/-- Everything observable about one sync call: warnings logged, whether
the clock was started (and the pool entered), the final stats, the
progress refreshes, the units whose outcomes were consumed from
as_completed in completion order, and the summary if printed. -/
structure SyncRun where
  warnings : List String
  clockStarted : Bool
  stats : Stats
  events : List ProgressEvent
  recordedUnits : List (String × String)
  report : Option Report
deriving Repr, DecidableEq

/-- Embedding of OptimizedS3Uploader.sync of src/sync.py, from a freshly
constructed uploader.  files is the submitted list; order is the
completion order in which as_completed yields the futures, one future
per submitted unit (so a permutation of files); run gives the result
each future carries.  An empty list logs a warning and returns at once:
no clock, no pool, no loop, no summary. -/
def sync (run : String × String → Outcome)
    (files order : List (String × String)) : SyncRun :=
  if files.isEmpty then
    { warnings := ["No files to sync"], clockStarted := false,
      stats := initStats, events := [], recordedUnits := [], report := none }
  else
    let r := syncLoop run files.length 0 startedStats order
    { warnings := [], clockStarted := true, stats := r.1, events := r.2,
      recordedUnits := order, report := some (print_summary r.1) }

/- ===================== concrete instances for examples ===================== -/

/-- A Config with mock mode off, dry run on, a bucket set, and the SMB
server unset. -/
def cfgDryNoSmb : Config :=
  ⟨"us-east-1", "bucket", "", "INTELLIGENT_TIERING", "", "", "", "", "",
   50, true, "INFO", false, 10⟩

/-- The same configuration with dry run off and the SMB server set. -/
def cfgLive : Config :=
  { cfgDryNoSmb with dry_run := false, smb_server := "srv" }

/-- A filesystem on which every size resolution returns 5 bytes. -/
def fsOk5 : String → Except String Nat := fun _ => Except.ok 5

/-- A filesystem on which every size resolution raises. -/
def fsErr : String → Except String Nat :=
  fun _ => Except.error "No such file or directory"

/-- A storage backend on which every put succeeds. -/
def putOk : Nat → String → String → Except String Unit := fun _ _ _ => Except.ok ()

/-- A storage backend on which every put raises. -/
def putErr : Nat → String → String → Except String Unit :=
  fun _ _ _ => Except.error "AccessDenied"

/-- A run in which every unit fails. -/
def runFail : String × String → Outcome :=
  fun u => { success := false, detail := u.1 ++ ": boom", bytes_transferred := 0 }

/-- A run in which the unit with source "a" succeeds with one byte and
every other unit fails. -/
def runMix : String × String → Outcome :=
  fun u => if u.1 = "a" then { success := true, detail := "a", bytes_transferred := 1 }
           else { success := false, detail := u.1 ++ ": boom", bytes_transferred := 0 }

/-- Two units, sources "a" and "b". -/
def filesAB : List (String × String) := [("a", "ka"), ("b", "kb")]

/-- The same two units in the opposite completion order. -/
def orderBA : List (String × String) := [("b", "kb"), ("a", "ka")]

/-- A one-byte success outcome. -/
def oneByteSuccess : Outcome := { success := true, detail := "f", bytes_transferred := 1 }

/-- A failure outcome. -/
def failOut : Outcome := { success := false, detail := "g: boom", bytes_transferred := 0 }

/- ===================== helper lemmas ===================== -/

/-- Closed form of the aggregation fold: each field of the final stats
is determined by the multiset of recorded outcomes. -/
theorem statsAfter_eq (l : List Outcome) : ∀ s : Stats,
    statsAfter s l =
      { success := s.success + l.countP (fun o => o.success),
        failed := s.failed + l.countP (fun o => !o.success),
        bytes_transferred := s.bytes_transferred +
          ((l.filter (fun o => o.success)).map Outcome.bytes_transferred).sum,
        start_time := s.start_time } := by
  induction l with
  | nil => intro s; simp [statsAfter]
  | cons o t ih =>
      intro s
      have hstep : statsAfter s (o :: t) = statsAfter (recordOutcome s o) t := by
        simp [statsAfter]
      rw [hstep, ih]
      cases ho : o.success <;>
        simp [recordOutcome, ho, List.countP_cons, List.filter_cons, Stats.mk.injEq] <;>
        omega

/-- Recording a list of outcomes adds its length to the counter sum. -/
theorem statsAfter_total (l : List Outcome) : ∀ s : Stats,
    (statsAfter s l).success + (statsAfter s l).failed =
      s.success + s.failed + l.length := by
  induction l with
  | nil => intro s; simp [statsAfter]
  | cons o t ih =>
      intro s
      have hstep : statsAfter s (o :: t) = statsAfter (recordOutcome s o) t := by
        simp [statsAfter]
      rw [hstep, ih]
      cases ho : o.success <;> simp [recordOutcome, ho] <;> omega

/-- The failed counter never decreases as outcomes are recorded. -/
theorem statsAfter_failed_mono (l : List Outcome) (s : Stats) :
    s.failed ≤ (statsAfter s l).failed := by
  rw [statsAfter_eq]
  simp

/-- Splitting the unit list splits the aggregation fold. -/
theorem runStats_append (run : String × String → Outcome) (s : Stats)
    (l₁ l₂ : List (String × String)) :
    runStats run s (l₁ ++ l₂) = statsAfter (runStats run s l₁) (l₂.map run) := by
  simp [runStats, statsAfter, List.foldl_append]

/-- The stats component of the sync loop is the aggregation fold over
the processed units. -/
theorem syncLoop_stats (run : String × String → Outcome) (total : Nat) :
    ∀ (us : List (String × String)) (c : Nat) (s : Stats),
      (syncLoop run total c s us).1 = runStats run s us := by
  intro us
  induction us with
  | nil => intro c s; simp [syncLoop, runStats, statsAfter]
  | cons u rest ih =>
      intro c s
      simp [syncLoop, runStats, statsAfter, ih]

/- ===================== claim theorems ===================== -/

/-- C7: format_bytes renders byte counts with base-1024 units B, KB,
MB, GB, TB, PB and two decimal places; in particular format_bytes 0 is
"0.00 B", format_bytes 1536 is "1.50 KB", format_bytes of 1024 to the
fourth power is "1.00 TB", and the ladder tops out at PB. -/
theorem format_bytes_spec :
    format_bytes 0 = "0.00 B" ∧
    format_bytes 1536 = "1.50 KB" ∧
    format_bytes (1024 ^ 4) = "1.00 TB" ∧
    format_bytes (1024 ^ 2) = "1.00 MB" ∧
    format_bytes (1024 ^ 3) = "1.00 GB" ∧
    format_bytes (1024 ^ 5) = "1.00 PB" := by decide

/-- C5 counterexample: a configuration in dry-run mode (mock mode off)
with the bucket set but no SMB server is rejected by the constructor,
although the claim says construction succeeds inside dry-run mode:
validation is only skipped in mock mode. -/
theorem config_validation_counterexample :
    cfgDryNoSmb.dry_run = true ∧ cfgDryNoSmb.mock_mode = false ∧
    cfgDryNoSmb.s3_bucket ≠ "" ∧
    Config.postInit cfgDryNoSmb =
      Except.error "SMB_SERVER is required when not in mock mode" := by
  refine ⟨rfl, rfl, ?_, rfl⟩
  decide

/-- C5 amended: construction succeeds exactly when the configuration is
in mock mode or both the bucket identifier and the SMB server are
present; outside mock mode a missing bucket or server is fatal before
any unit is scheduled, and dry-run mode does not exempt validation. -/
theorem config_validation_amended (c : Config) :
    Config.postInit c = Except.ok () ↔
      (c.mock_mode = true ∨ (c.s3_bucket ≠ "" ∧ c.smb_server ≠ "")) := by
  by_cases hm : c.mock_mode
  · simp [Config.postInit, hm]
  · by_cases hb : c.s3_bucket = ""
    · simp [Config.postInit, hm, hb]
    · by_cases hs : c.smb_server = "" <;> simp [Config.postInit, hm, hb, hs]

/-- C4 counterexample: on an empty unit list, sync returns right after
the warning and never reaches print_summary, so no report is produced at
all, rather than a report indicating zero total files. -/
theorem sync_empty_counterexample :
    (sync runFail [] []).report = none ∧
    (sync runFail [] []).warnings = ["No files to sync"] := ⟨rfl, rfl⟩

/-- C4 amended: an empty unit list logs the warning and returns at once:
the clock is not started, the pool is never entered, no outcome is
recorded, no progress event is emitted, and no report is produced (the
summary with its rate computation is skipped entirely, so no division
by zero can occur). -/
theorem sync_empty_amended (run : String × String → Outcome)
    (order : List (String × String)) :
    sync run [] order =
      { warnings := ["No files to sync"], clockStarted := false,
        stats := initStats, events := [], recordedUnits := [],
        report := none } := rfl

/-- C3: upload_file never propagates an exception: an error during size
resolution, and an error during the put in a non-dry-run, each yield a
failed outcome whose detail is the source path followed by the
underlying cause and whose bytes_transferred is 0; on success the detail
is exactly the source path. -/
theorem upload_file_error_handling (cfg : Config)
    (fs : String → Except String Nat)
    (put : Nat → String → String → Except String Unit)
    (w : Nat) (st : ClientCache) (p k : String) :
    (∀ e, fs p = Except.error e →
      (upload_file cfg fs put w st p k).1 =
        { success := false, detail := p ++ ": " ++ e, bytes_transferred := 0 }) ∧
    (∀ m e, fs p = Except.ok m → cfg.dry_run = false →
      put (get_s3_client w st).1 p k = Except.error e →
      (upload_file cfg fs put w st p k).1 =
        { success := false, detail := p ++ ": " ++ e, bytes_transferred := 0 }) ∧
    ((upload_file cfg fs put w st p k).1.success = true →
      (upload_file cfg fs put w st p k).1.detail = p) := by
  rcases hfs : fs p with e | n
  · refine ⟨fun e2 he => ?_, fun m e2 he hdry hput => ?_, fun hs => ?_⟩
    · cases he
      simp [upload_file, hfs]
    · exact Except.noConfusion he
    · simp [upload_file, hfs] at hs
  · refine ⟨fun e2 he => ?_, fun m e2 _ hdry hput => ?_, fun hs => ?_⟩
    · exact Except.noConfusion he
    · simp [upload_file, hfs, hdry, hput]
    · by_cases hdry : cfg.dry_run
      · simp [upload_file, hfs, hdry]
      · rcases hput : put (get_s3_client w st).1 p k with e2 | u <;>
          simp [upload_file, hfs, hdry, hput] at hs ⊢

/-- Witness for C3: a size-resolution failure and a put failure each
produce the failed outcome with path, cause and zero bytes. -/
theorem upload_file_error_handling_witness :
    (upload_file cfgLive fsErr putOk 0 initCache "a" "k").1 =
      { success := false, detail := "a: No such file or directory",
        bytes_transferred := 0 } ∧
    (upload_file cfgLive fsOk5 putErr 0 initCache "a" "k").1 =
      { success := false, detail := "a: AccessDenied", bytes_transferred := 0 } :=
  ⟨(upload_file_error_handling cfgLive fsErr putOk 0 initCache "a" "k").1
     "No such file or directory" rfl,
   (upload_file_error_handling cfgLive fsOk5 putErr 0 initCache "a" "k").2.1
     5 "AccessDenied" rfl rfl rfl⟩

/-- C10: the source size is resolved before the dry-run branch, so even
in dry-run mode a unit whose source cannot be resolved yields a failed
outcome carrying the path and the cause with 0 bytes (and the worker
client is not even obtained): dry-run does not mask source-side I/O
errors. -/
theorem dry_run_missing_source (cfg : Config)
    (fs : String → Except String Nat)
    (put : Nat → String → String → Except String Unit)
    (w : Nat) (st : ClientCache) (p k e : String)
    (hdry : cfg.dry_run = true) (hfs : fs p = Except.error e) :
    (upload_file cfg fs put w st p k).1 =
      { success := false, detail := p ++ ": " ++ e, bytes_transferred := 0 } ∧
    (upload_file cfg fs put w st p k).2.2 = [Effect.getSize p] := by
  simp [upload_file, hfs]

/-- Witness for C10: in the dry-run configuration, a missing source
file still produces the failed outcome, not a synthesized success. -/
theorem dry_run_missing_source_witness :
    (upload_file cfgDryNoSmb fsErr putOk 0 initCache "a" "k").1 =
      { success := false, detail := "a: No such file or directory",
        bytes_transferred := 0 } ∧
    (upload_file cfgDryNoSmb fsErr putOk 0 initCache "a" "k").2.2 =
      [Effect.getSize "a"] :=
  dry_run_missing_source cfgDryNoSmb fsErr putOk 0 initCache "a" "k"
    "No such file or directory" rfl rfl

/-- C2 counterexample: in dry-run mode on an existing source file,
upload_file does obtain the worker storage client — the getClient effect
occurs and a client is lazily constructed (the construction counter
moves from 0 to 1) — contradicting the claim that the client is not
obtained. -/
theorem dry_run_client_counterexample :
    Effect.getClient 0 ∈
      (upload_file cfgDryNoSmb fsOk5 putOk 0 initCache "a" "k").2.2 ∧
    ((upload_file cfgDryNoSmb fsOk5 putOk 0 initCache "a" "k").2.1).nextId = 1 ∧
    (upload_file cfgDryNoSmb fsOk5 putOk 0 initCache "a" "k").1 =
      { success := true, detail := "a", bytes_transferred := 5 } := by
  refine ⟨?_, rfl, rfl⟩
  simp [upload_file, fsOk5, cfgDryNoSmb, get_s3_client, initCache]

/-- C2 amended: in dry-run mode, for every unit whose source size
resolves, upload_file returns a success outcome carrying the resolved
size and issues no storage operation (a stub storage client receives
zero put calls), but it does obtain the worker storage client before
taking the dry-run branch. -/
theorem dry_run_amended (cfg : Config) (fs : String → Except String Nat)
    (put : Nat → String → String → Except String Unit)
    (w : Nat) (st : ClientCache) (p k : String) (n : Nat)
    (hdry : cfg.dry_run = true) (hfs : fs p = Except.ok n) :
    (upload_file cfg fs put w st p k).1 =
      { success := true, detail := p, bytes_transferred := n } ∧
    ((upload_file cfg fs put w st p k).2.2).countP Effect.isPutOp = 0 ∧
    Effect.getClient w ∈ (upload_file cfg fs put w st p k).2.2 := by
  simp [upload_file, hfs, hdry, Effect.isPutOp]

/-- Witness for C2 amended: dry-run upload of an existing 5-byte file
succeeds with 5 bytes, performs no put, and obtains the client. -/
theorem dry_run_amended_witness :
    (upload_file cfgDryNoSmb fsOk5 putOk 0 initCache "a" "k").1 =
      { success := true, detail := "a", bytes_transferred := 5 } ∧
    ((upload_file cfgDryNoSmb fsOk5 putOk 0 initCache "a" "k").2.2).countP
      Effect.isPutOp = 0 ∧
    Effect.getClient 0 ∈
      (upload_file cfgDryNoSmb fsOk5 putOk 0 initCache "a" "k").2.2 :=
  dry_run_amended cfgDryNoSmb fsOk5 putOk 0 initCache "a" "k" 5 rfl rfl

/-- The empty cache is well formed. -/
theorem initCache_wf : initCache.WF := by
  constructor
  · intro w c h
    simp [initCache] at h
  · intro w v c h
    simp [initCache] at h

/-- A cache hit returns the cached client and leaves the state alone. -/
theorem get_s3_client_cached (st : ClientCache) (w c : Nat)
    (hc : st.cache w = some c) : get_s3_client w st = (c, st) := by
  unfold get_s3_client
  rw [hc]

/-- A cache miss constructs the next client and stores it for w. -/
theorem get_s3_client_fresh (st : ClientCache) (w : Nat)
    (hc : st.cache w = none) :
    get_s3_client w st =
      (st.nextId,
       { nextId := st.nextId + 1,
         cache := fun x => if x = w then some st.nextId else st.cache x }) := by
  unfold get_s3_client
  rw [hc]

/-- get_s3_client preserves cache well-formedness. -/
theorem get_s3_client_wf (w : Nat) (st : ClientCache) (hwf : st.WF) :
    ((get_s3_client w st).2).WF := by
  rcases hwf with ⟨hlt, hinj⟩
  rcases hc : st.cache w with _ | c
  · rw [get_s3_client_fresh st w hc]
    refine ⟨?_, ?_⟩
    · intro v c h
      by_cases hv : v = w
      · subst hv
        simp at h ⊢
        omega
      · simp [hv] at h ⊢
        exact Nat.lt_succ_of_lt (hlt v c h)
    · intro v u c h1 h2
      by_cases hv : v = w <;> by_cases hu : u = w
      · subst hv; subst hu; rfl
      · subst hv
        simp [hu] at h1 h2
        exact absurd (hlt u c h2) (by omega)
      · subst hu
        simp [hv] at h1 h2
        exact absurd (hlt v c h1) (by omega)
      · simp [hv, hu] at h1 h2
        exact hinj v u c h1 h2
  · rw [get_s3_client_cached st w c hc]
    exact ⟨hlt, hinj⟩

/-- C8: get_s3_client is a lazy per-worker cache: a second call from the
same worker context returns exactly the result of the first — the same
client instance with the state unchanged, so no new client is
constructed — while a call from a distinct worker context on the
resulting state yields a distinct, never-shared instance. -/
theorem client_cache_contract (st : ClientCache) (w v : Nat)
    (hwf : st.WF) (hne : w ≠ v) :
    get_s3_client w ((get_s3_client w st).2) = get_s3_client w st ∧
    (get_s3_client w st).1 ≠ (get_s3_client v ((get_s3_client w st).2)).1 := by
  have cached := get_s3_client_cached
  have fresh := get_s3_client_fresh
  rcases hwf with ⟨hlt, hinj⟩
  have hvw : v ≠ w := fun h => hne h.symm
  rcases hc : st.cache w with _ | c
  · rw [fresh st w hc]
    constructor
    · exact cached _ w st.nextId (by simp)
    · rcases hv : st.cache v with _ | c2
      · rw [fresh _ v (by simp [hvw, hv])]
        simp
      · rw [cached _ v c2 (by simp [hvw, hv])]
        have := hlt v c2 hv
        omega
  · rw [cached st w c hc]
    constructor
    · exact cached st w c hc
    · rcases hv : st.cache v with _ | c2
      · rw [fresh st v hv]
        have := hlt w c hc
        simp
        omega
      · rw [cached st v c2 hv]
        simp
        intro hcc
        subst hcc
        exact hne (hinj w v c hc hv)

/-- Witness for C8: from the fresh cache, worker 0 gets the same client
on its second call and worker 1 gets a different one. -/
theorem client_cache_contract_witness :
    get_s3_client 0 ((get_s3_client 0 initCache).2) = get_s3_client 0 initCache ∧
    (get_s3_client 0 initCache).1 ≠
      (get_s3_client 1 ((get_s3_client 0 initCache).2)).1 :=
  client_cache_contract initCache 0 1 initCache_wf (by decide)

/-- C9: the aggregation is update-exact: recording a list of outcomes
makes succeeded_count the number of successes, failed_count the number
of failures, and total_bytes the byte sum over the successes, each
record incrementing exactly one counter; consequently any two delivery
interleavings of the same multiset of outcomes (the records are applied
atomically one at a time by the consuming loop) produce identical final
stats, with no lost updates. -/
theorem aggregator_totals (s : Stats) (l : List Outcome) :
    ((statsAfter s l).success = s.success + l.countP (fun o => o.success)) ∧
    ((statsAfter s l).failed = s.failed + l.countP (fun o => !o.success)) ∧
    ((statsAfter s l).bytes_transferred = s.bytes_transferred +
      ((l.filter (fun o => o.success)).map Outcome.bytes_transferred).sum) ∧
    (∀ l2, l.Perm l2 → statsAfter s l = statsAfter s l2) := by
  refine ⟨?_, ?_, ?_, ?_⟩
  · rw [statsAfter_eq]
  · rw [statsAfter_eq]
  · rw [statsAfter_eq]
  · intro l2 hp
    rw [statsAfter_eq, statsAfter_eq l2]
    have h1 := hp.countP_eq (fun o => o.success)
    have h2 := hp.countP_eq (fun o => !o.success)
    have h3 := (((hp.filter (fun o => o.success)).map
      Outcome.bytes_transferred)).sum_eq
    rw [h1, h2, h3]

/-- Witness for C9: ten thousand one-byte successes aggregate to ten
thousand succeeded and ten thousand bytes, and a reordered delivery of
a mixed batch yields the same final stats. -/
theorem aggregator_totals_witness :
    ((statsAfter initStats (List.replicate 10000 oneByteSuccess)).success =
      10000) ∧
    ((statsAfter initStats (List.replicate 10000 oneByteSuccess)).bytes_transferred
      = 10000) ∧
    statsAfter initStats [oneByteSuccess, failOut, oneByteSuccess] =
      statsAfter initStats [failOut, oneByteSuccess, oneByteSuccess] := by
  have h := aggregator_totals initStats (List.replicate 10000 oneByteSuccess)
  have hmix := (aggregator_totals initStats
    [oneByteSuccess, failOut, oneByteSuccess]).2.2.2
    [failOut, oneByteSuccess, oneByteSuccess] (by decide)
  refine ⟨?_, ?_, hmix⟩
  · rw [h.1, List.countP_eq_length_filter, List.filter_replicate]
    norm_num [initStats, oneByteSuccess]
  · rw [h.2.2.1, List.filter_replicate]
    norm_num [initStats, oneByteSuccess, List.map_replicate, List.sum_replicate]

/-- C1: for any submitted list of N units whose futures complete in any
order (one completion per submitted unit), the run ends with
succeeded_count + failed_count = N, every unit has exactly one recorded
outcome (no duplicates, no omissions), and after any number k of
completions the two counters sum to at most N. -/
theorem sync_completeness (run : String × String → Outcome)
    (files order : List (String × String)) (h : order.Perm files) :
    ((sync run files order).stats.success +
       (sync run files order).stats.failed = files.length) ∧
    (∀ u, (sync run files order).recordedUnits.countP (fun x => x == u) =
       files.countP (fun x => x == u)) ∧
    (∀ k, (runStats run startedStats (order.take k)).success +
          (runStats run startedStats (order.take k)).failed ≤ files.length) := by
  have hlen : order.length = files.length := h.length_eq
  have hinter : ∀ k, (runStats run startedStats (order.take k)).success +
      (runStats run startedStats (order.take k)).failed ≤ files.length := by
    intro k
    rw [runStats, statsAfter_total]
    simp only [startedStats, initStats, List.length_map, List.length_take]
    omega
  rcases files with _ | ⟨f0, fs0⟩
  · have hoe : order = [] := h.eq_nil
    subst hoe
    exact ⟨by simp [sync, initStats], fun u => by simp [sync], hinter⟩
  · have hs : (sync run (f0 :: fs0) order).stats =
        runStats run startedStats order := by
      simp [sync, syncLoop_stats]
    have hr : (sync run (f0 :: fs0) order).recordedUnits = order := by
      simp [sync]
    refine ⟨?_, ?_, hinter⟩
    · rw [hs, runStats, statsAfter_total]
      simp only [startedStats, initStats, List.length_map]
      omega
    · intro u
      rw [hr]
      exact h.countP_eq (fun x => x == u)

/-- Witness for C1: two units completing in reversed order yield
success + failed = 2, one recorded outcome for the first unit, and a
bounded counter sum after the first completion. -/
theorem sync_completeness_witness :
    ((sync runMix filesAB orderBA).stats.success +
       (sync runMix filesAB orderBA).stats.failed = 2) ∧
    ((sync runMix filesAB orderBA).recordedUnits.countP
       (fun x => x == ("a", "ka")) =
       filesAB.countP (fun x => x == ("a", "ka"))) ∧
    ((runStats runMix startedStats (orderBA.take 1)).success +
       (runStats runMix startedStats (orderBA.take 1)).failed ≤ 2) := by
  have h := sync_completeness runMix filesAB orderBA (by decide)
  exact ⟨h.1, h.2.1 ("a", "ka"), h.2.2 1⟩

/-- Peeling one unit off the aggregation fold. -/
theorem runStats_cons (run : String × String → Outcome) (s : Stats)
    (u : String × String) (l : List (String × String)) :
    runStats run s (u :: l) = runStats run (recordOutcome s (run u)) l := by
  simp [runStats, statsAfter]

/-- The failed counter is monotone along prefixes of the completion
order. -/
theorem runStats_take_failed_mono (run : String × String → Outcome)
    (s : Stats) (l : List (String × String)) (i j : Nat) (hij : i ≤ j) :
    (runStats run s (l.take i)).failed ≤ (runStats run s (l.take j)).failed := by
  have hsplit : l.take j = l.take i ++ (l.take j).drop i := by
    conv_lhs => rw [← List.take_append_drop i (l.take j)]
    rw [List.take_take, Nat.min_eq_left hij]
  rw [hsplit, runStats_append]
  exact statsAfter_failed_mono _ _

/-- Shape of the progress events emitted by the sync loop: one event per
completion, the bar advancing by one each time, and the readout guarded
by the success count recorded so far. -/
theorem syncLoop_events (run : String × String → Outcome) (total : Nat) :
    ∀ (us : List (String × String)) (c : Nat) (s : Stats),
      ((syncLoop run total c s us).2.length = us.length) ∧
      ∀ i (hi : i < (syncLoop run total c s us).2.length),
        (syncLoop run total c s us).2.get ⟨i, hi⟩ =
          { completed := c + i + 1, total := total,
            readout := liveReadout (runStats run s (us.take (i + 1))) } := by
  intro us
  induction us with
  | nil =>
      intro c s
      refine ⟨rfl, fun i hi => absurd hi ?_⟩
      simp [syncLoop]
  | cons u rest ih =>
      intro c s
      have hlen : (syncLoop run total c s (u :: rest)).2.length = rest.length + 1 := by
        simp [syncLoop, (ih (c + 1) (recordOutcome s (run u))).1]
      refine ⟨hlen, ?_⟩
      intro i hi
      match i with
      | 0 =>
          show ({ completed := c + 1, total := total,
                  readout := liveReadout (recordOutcome s (run u)) } :
                ProgressEvent) = _
          have h1 : runStats run s ((u :: rest).take 1) =
              recordOutcome s (run u) := by
            simp [runStats, statsAfter]
          rw [h1]
      | Nat.succ j =>
          have hj : j < (syncLoop run total (c + 1)
              (recordOutcome s (run u)) rest).2.length := by
            have := (ih (c + 1) (recordOutcome s (run u))).1
            rw [this]
            rw [hlen] at hi
            omega
          have h2 := (ih (c + 1) (recordOutcome s (run u))).2 j hj
          show (syncLoop run total (c + 1) (recordOutcome s (run u)) rest).2.get
              ⟨j, hj⟩ = _
          rw [h2]
          simp [ProgressEvent.mk.injEq, runStats_cons]
          omega

/-- C6 counterexample: in a run whose only unit fails, the completion
advances the bar but the rate and failure readout is not refreshed (the
guard requiring at least one success blocks set_postfix), so the live
display does not show the updated failure count after that
completion. -/
theorem progress_readout_counterexample :
    (sync runFail [("a", "k")] [("a", "k")]).events =
      [{ completed := 1, total := 1, readout := none }] := by decide

/-- C6 amended: after every unit completion the bar count advances by
one to the completion index; the rate and failure readout is refreshed
only when at least one success has been recorded so far; and whenever
the failed count is displayed it is monotonically non-decreasing over
the run. -/
theorem progress_readout_amended (run : String × String → Outcome)
    (files order : List (String × String)) (hne : files ≠ []) :
    ((sync run files order).events.length = order.length) ∧
    (∀ i (hi : i < (sync run files order).events.length),
      (sync run files order).events.get ⟨i, hi⟩ =
        { completed := i + 1, total := files.length,
          readout := liveReadout (runStats run startedStats (order.take (i + 1))) }) ∧
    (∀ i j (hi : i < (sync run files order).events.length)
       (hj : j < (sync run files order).events.length), i ≤ j →
       ∀ a b, ((sync run files order).events.get ⟨i, hi⟩).readout = some a →
         ((sync run files order).events.get ⟨j, hj⟩).readout = some b → a ≤ b) := by
  rcases files with _ | ⟨f0, fs0⟩
  · exact absurd rfl hne
  · have hev : (sync run (f0 :: fs0) order).events =
        (syncLoop run (f0 :: fs0).length 0 startedStats order).2 := by
      simp [sync]
    have hL := syncLoop_events run (f0 :: fs0).length order 0 startedStats
    have hget : ∀ i (hi : i < (sync run (f0 :: fs0) order).events.length),
        (sync run (f0 :: fs0) order).events.get ⟨i, hi⟩ =
          { completed := i + 1, total := (f0 :: fs0).length,
            readout := liveReadout (runStats run startedStats
              (order.take (i + 1))) } := by
      intro i hi
      have hi2 : i < (syncLoop run (f0 :: fs0).length 0 startedStats order).2.length := by
        rw [← hev]
        exact hi
      have := hL.2 i hi2
      have hz : (0 : Nat) + i + 1 = i + 1 := by omega
      rw [hz] at this
      calc (sync run (f0 :: fs0) order).events.get ⟨i, hi⟩
          = (syncLoop run (f0 :: fs0).length 0 startedStats order).2.get ⟨i, hi2⟩ := by
            congr 1
        _ = _ := this
    refine ⟨by rw [hev]; exact hL.1, hget, ?_⟩
    intro i j hi hj hij a b ha hb
    rw [hget i hi] at ha
    rw [hget j hj] at hb
    simp only [liveReadout] at ha hb
    by_cases hsi : (runStats run startedStats (order.take (i + 1))).success > 0
    · by_cases hsj : (runStats run startedStats (order.take (j + 1))).success > 0
      · rw [if_pos hsi] at ha
        rw [if_pos hsj] at hb
        cases ha
        cases hb
        exact runStats_take_failed_mono run startedStats order (i + 1) (j + 1)
          (by omega)
      · rw [if_neg hsj] at hb
        cases hb
    · rw [if_neg hsi] at ha
      cases ha

/-- Witness for C6 amended: a success followed by a failure shows the
bar at 1 then 2, the readout appearing once a success exists, and the
displayed failed count growing from 0 to 1. -/
theorem progress_readout_amended_witness :
    ((sync runMix filesAB filesAB).events.length = 2) ∧
    ((sync runMix filesAB filesAB).events.get ⟨0, by decide⟩ =
       { completed := 1, total := 2, readout := some 0 }) ∧
    ((sync runMix filesAB filesAB).events.get ⟨1, by decide⟩ =
       { completed := 2, total := 2, readout := some 1 }) ∧
    (0 : Nat) ≤ 1 := by
  have h := progress_readout_amended runMix filesAB filesAB (by decide)
  have h0 : (0 : Nat) < (sync runMix filesAB filesAB).events.length := by decide
  have h1 : (1 : Nat) < (sync runMix filesAB filesAB).events.length := by decide
  have e0 : (sync runMix filesAB filesAB).events.get ⟨0, h0⟩ =
      { completed := 1, total := 2, readout := some 0 } :=
    (h.2.1 0 h0).trans (by decide)
  have e1 : (sync runMix filesAB filesAB).events.get ⟨1, h1⟩ =
      { completed := 2, total := 2, readout := some 1 } :=
    (h.2.1 1 h1).trans (by decide)
  have r0 : ((sync runMix filesAB filesAB).events.get ⟨0, h0⟩).readout = some 0 := by
    rw [e0]
  have r1 : ((sync runMix filesAB filesAB).events.get ⟨1, h1⟩).readout = some 1 := by
    rw [e1]
  exact ⟨h.1, e0, e1, h.2.2 0 1 h0 h1 (by omega) 0 1 r0 r1⟩
